import Mathlib

/-!
# Shallow embedding of the hasura-auth registration and email-change handlers

This file embeds the two request handlers the claims are about:

* `registerAccount` from the registration route (the unnamed source file
  exporting the `/register` endpoint), and
* `userEmailChange` from `src/routes/user/email/change.ts`,

as pure Lean functions.  External effects (database lookups and mutations,
e-mail sending, hashing, JWT creation, UUID generation, the clock) are
modelled by explicit inputs (a "world" record of oracle values and
functions) and by explicit outputs recording the inserted/updated rows and
the e-mails that were sent.  Timestamps are milliseconds since the epoch
(`Nat`); the handler only ever builds `now + offset` values, so the ISO
rendering of dates is abstracted away.
-/

namespace HasuraAuth

/-- The `REGISTRATION` configuration object, restricted to the fields the
registration handler reads. -/
structure RegistrationConfig where
  ADMIN_ONLY : Bool
  WHITELIST : Bool
  DEFAULT_USER_ROLE : String
  DEFAULT_ALLOWED_USER_ROLES : List String
  ALLOWED_USER_ROLES : List String
  AUTO_ACTIVATE_NEW_USERS : Bool

/-- The `APPLICATION` configuration object, restricted to the fields the
registration handler reads. -/
structure ApplicationConfig where
  HASURA_GRAPHQL_ADMIN_SECRET : String
  EMAILS_ENABLED : Bool
  SERVER_URL : String
  APP_URL : String

/-- The `AUTHENTICATION` configuration object, restricted to the fields the
registration handler reads. -/
structure AuthenticationConfig where
  VERIFY_EMAILS : Bool
  MAGIC_LINK_ENABLED : Bool

/-- The `register_options` part of the request body: both fields are
optional and fall back to the configured defaults. -/
structure RegisterOptions where
  default_role : Option String
  allowed_roles : Option (List String)

/-- The validated `/register` request body.  `password` is present exactly
for the regular (password) login flow and absent for magic-link
registration; of the free-form `user_data` object only the `display_name`
key is ever read by the handler, so only it is modelled. -/
structure RegisterBody where
  email : String
  password : Option String
  user_data_display_name : Option String
  register_options : RegisterOptions
  locale : String

/-- Modelled from the spec: the validation module (`isRegularLogin` in
`@/validation`) is not among the sources; the spec describes magic-link
login as the passwordless flow, so a regular (password) login is a request
body carrying a password. -/
def isRegularLogin (body : RegisterBody) : Bool :=
  body.password.isSome

/-- Modelled from the spec: the validation module (`isMagicLinkLogin` in
`@/validation`) is not among the sources; per the spec, magic-link login is
the passwordless flow, so a magic-link body is one without a password. -/
def isMagicLinkLogin (body : RegisterBody) : Bool :=
  body.password.isNone

/-- The row returned by the `insertAccount` mutation
(`insert_auth_accounts.returning[0]`), restricted to the fields the handler
reads afterwards. -/
structure AccountReturning where
  id : String
  email : String
  locale : String
  user_id : String
  user_display_name : String
  user_avatar_url : String

/-- The account object passed to the `insertAccount` mutation.  The nested
`user.data` object is flattened into the `display_name` / `avatar_url`
fields, and `account_roles.data` into the list of role names. -/
structure AccountInsert where
  email : String
  password_hash : Option String
  ticket : String
  ticket_expires_at : Nat
  active : Bool
  locale : String
  default_role : String
  account_roles : List String
  display_name : String
  avatar_url : String
deriving DecidableEq

/-- The `user` object placed into the response session. -/
structure UserData where
  id : String
  display_name : String
  email : String
  avatar_url : String
deriving DecidableEq

/-- A response session.  The handler either sends
`\x7b jwt_token: null, jwt_expires_in: null, user \x7d` (no `refresh_token`
key, modelled as `none`) or a full session with all three present. -/
structure Session where
  jwt_token : Option String
  jwt_expires_in : Option Nat
  user : UserData
  refresh_token : Option String
deriving DecidableEq

/-- A message handed to `emailClient.send`, restricted to the fields the
claims are about: the template name, the `message.to` address, the
`x-ticket` header value, the ticket/token value placed into the template
locals, the `link` local, the display-name and locale locals, and (for the
email-change template) the `x-redirect-to` and `x-email-template`
headers. -/
structure Email where
  template : String
  toAddr : String
  x_ticket : String
  localTicket : String
  displayName : String
  locale : String
  link : Option String
  x_redirect_to : Option String
  x_email_template : Option String
deriving DecidableEq

/-- The HTTP outcome of the registration handler: a Boom 401
(`unauthorized`), a Boom 400 (`badRequest`), an uncaught exception
(surfacing as a 5xx), or a 200 carrying a session. -/
inductive RegisterResponse where
  | unauthorized (msg : String)
  | badRequest (msg : String)
  | thrown (msg : String)
  | ok (s : Session)
deriving DecidableEq

/-- `True` exactly for the Boom 4xx constructors. -/
def RegisterResponse.is4xx : RegisterResponse → Bool
  | .unauthorized _ => true
  | .badRequest _ => true
  | .thrown _ => false
  | .ok _ => false

/-- The external world of one registration request: the request header and
the results the handler observes from its helpers, the database, the clock
and the UUID generator. -/
structure RegisterWorld where
  adminSecretHeader : Option String
  isAllowedEmail : String → Bool
  selectAccountByEmail : String → Bool
  isCompromisedPassword : String → Bool
  hashPassword : String → String
  getGravatarUrl : String → String
  insertReturning : AccountReturning
  setRefreshToken : String → String
  createHasuraJwt : AccountReturning → String
  newJwtExpiry : Nat
  uuid : String
  now : Nat

/-- Everything one invocation of the registration handler did: the HTTP
response, the account row inserted (if any), the e-mails sent, and the
passwords submitted to the compromised-password check. -/
structure RegisterResult where
  response : RegisterResponse
  inserted : Option AccountInsert
  emails : List Email
  checkedPasswords : List String

/-- The resolved default role: `register_options.default_role` or the
configured `REGISTRATION.DEFAULT_USER_ROLE`. -/
def resolvedDefaultRole (reg : RegistrationConfig) (body : RegisterBody) : String :=
  body.register_options.default_role.getD reg.DEFAULT_USER_ROLE

/-- The resolved allowed-roles list: `register_options.allowed_roles` or
the configured `REGISTRATION.DEFAULT_ALLOWED_USER_ROLES`. -/
def resolvedAllowedRoles (reg : RegistrationConfig) (body : RegisterBody) : List String :=
  body.register_options.allowed_roles.getD reg.DEFAULT_ALLOWED_USER_ROLES

/-- The admin-only guard: with `REGISTRATION.ADMIN_ONLY` set, the request is
rejected when the `x-admin-secret` header differs from the configured
secret. -/
def adminBlocked (reg : RegistrationConfig) (app : ApplicationConfig)
    (w : RegisterWorld) : Bool :=
  reg.ADMIN_ONLY && !(w.adminSecretHeader == some app.HASURA_GRAPHQL_ADMIN_SECRET)

/-- The whitelist guard: with `REGISTRATION.WHITELIST` set, the request is
rejected when `isAllowedEmail` denies the address. -/
def whitelistBlocked (reg : RegistrationConfig) (w : RegisterWorld)
    (body : RegisterBody) : Bool :=
  reg.WHITELIST && !(w.isAllowedEmail body.email)

/-- The tail of `registerAccount` after the password has been handled:
role validation, the `insertAccount` mutation, and the three response
branches (verification e-mail with a null session, magic-link e-mail with a
null session, or refresh-token + JWT session).  `password_hash` is the hash
computed for a regular login (`none` otherwise) and `checked` records the
passwords already submitted to the compromised-password check. -/
def registerInsert (reg : RegistrationConfig) (app : ApplicationConfig)
    (auth : AuthenticationConfig) (w : RegisterWorld) (body : RegisterBody)
    (password_hash : Option String) (checked : List String) : RegisterResult :=
  let defaultRole := resolvedDefaultRole reg body
  let allowedRoles := resolvedAllowedRoles reg body
  if !(allowedRoles.contains defaultRole) then
    { response := .badRequest "Default role must be part of allowed roles",
      inserted := none, emails := [], checkedPasswords := checked }
  else if !(allowedRoles.all fun role => reg.ALLOWED_USER_ROLES.contains role) then
    { response := .badRequest "Allowed roles must be a subset of ALLOWED_ROLES",
      inserted := none, emails := [], checkedPasswords := checked }
  else
    let ticket := w.uuid
    let ticket_expires_at := w.now + 60 * 60 * 1000
    let inserted : AccountInsert :=
      { email := body.email
        password_hash := password_hash
        ticket := ticket
        ticket_expires_at := ticket_expires_at
        active := reg.AUTO_ACTIVATE_NEW_USERS
        locale := body.locale
        default_role := defaultRole
        account_roles := allowedRoles
        display_name := body.user_data_display_name.getD body.email
        avatar_url := w.getGravatarUrl body.email }
    let account := w.insertReturning
    let user : UserData :=
      { id := account.user_id
        display_name := account.user_display_name
        email := account.email
        avatar_url := account.user_avatar_url }
    if !reg.AUTO_ACTIVATE_NEW_USERS && auth.VERIFY_EMAILS then
      if !app.EMAILS_ENABLED then
        { response := .thrown "SMTP settings unavailable",
          inserted := some inserted, emails := [], checkedPasswords := checked }
      else
        let display_name := body.user_data_display_name.getD body.email
        if isMagicLinkLogin body then
          let e : Email :=
            { template := "magic-link"
              toAddr := user.email
              x_ticket := ticket
              localTicket := ticket
              displayName := display_name
              locale := account.locale
              link := none
              x_redirect_to := none
              x_email_template := none }
          { response := .ok { jwt_token := none, jwt_expires_in := none,
                              user := user, refresh_token := none },
            inserted := some inserted, emails := [e], checkedPasswords := checked }
        else
          let e : Email :=
            { template := "activate-account"
              toAddr := body.email
              x_ticket := ticket
              localTicket := ticket
              displayName := display_name
              locale := account.locale
              link := none
              x_redirect_to := none
              x_email_template := none }
          { response := .ok { jwt_token := none, jwt_expires_in := none,
                              user := user, refresh_token := none },
            inserted := some inserted, emails := [e], checkedPasswords := checked }
    else
      let refresh_token := w.setRefreshToken account.id
      let jwt_token := w.createHasuraJwt account
      { response := .ok { jwt_token := some jwt_token,
                          jwt_expires_in := some w.newJwtExpiry,
                          user := user, refresh_token := some refresh_token },
        inserted := some inserted, emails := [], checkedPasswords := checked }

/-- The `/register` handler (`registerAccount`): admin-only guard,
whitelist guard, duplicate-account guard, then (for regular logins) the
compromised-password check and hashing, then `registerInsert`. -/
def registerAccount (reg : RegistrationConfig) (app : ApplicationConfig)
    (auth : AuthenticationConfig) (w : RegisterWorld) (body : RegisterBody) :
    RegisterResult :=
  if adminBlocked reg app w then
    { response := .unauthorized "Invalid x-admin-secret",
      inserted := none, emails := [], checkedPasswords := [] }
  else if whitelistBlocked reg w body then
    { response := .unauthorized "Email not allowed",
      inserted := none, emails := [], checkedPasswords := [] }
  else if w.selectAccountByEmail body.email then
    { response := .badRequest "Account already exists",
      inserted := none, emails := [], checkedPasswords := [] }
  else
    match body.password with
    | some pw =>
      if w.isCompromisedPassword pw then
        { response := .badRequest "Password is too weak",
          inserted := none, emails := [], checkedPasswords := [pw] }
      else
        registerInsert reg app auth w body (some (w.hashPassword pw)) [pw]
    | none => registerInsert reg app auth w body none []

/-! ## The email-change handler (`src/routes/user/email/change.ts`) -/

/-- The environment of the email-change handler: the server/client URLs and
default locale from `ENV`, and `EMAIL_TYPES.CONFIRM_CHANGE` (the `@/types`
module is not among the sources, so the tag value is kept abstract as a
field; the handler only ever concatenates it). -/
structure ChangeEnv where
  AUTH_SERVER_URL : String
  AUTH_CLIENT_URL : String
  AUTH_LOCALE_DEFAULT : String
  CONFIRM_CHANGE : String

/-- The user row returned by the `updateUser` mutation
(`update_users_by_pk`), restricted to the fields the handler reads. -/
structure ChangeUser where
  displayName : String
  locale : Option String

/-- The external world of one email-change request: the generated UUID, the
clock, and the row the `updateUser` mutation returns (`none` when no user
was updated). -/
structure ChangeWorld where
  uuid : String
  now : Nat
  updatedUser : Option ChangeUser

/-- The column values the handler passes to the `updateUser` mutation. -/
structure UpdateUserPayload where
  id : String
  ticket : String
  ticketExpiresAt : Nat
  newEmail : String
deriving DecidableEq

/-- The HTTP outcome of the email-change handler: `200 OK`
(`ReasonPhrases.OK`) or an uncaught exception. -/
inductive ChangeResponse where
  | ok
  | thrown (msg : String)
deriving DecidableEq

/-- Everything one invocation of the email-change handler did: the payload
of the `updateUser` mutation (always issued, before the result is
inspected), the HTTP outcome, and the e-mails sent. -/
structure ChangeResult where
  update : UpdateUserPayload
  response : ChangeResponse
  emails : List Email

/-- Modelled from the spec: `generateTicketExpiresAt` (in `@/utils`) is not
among the sources.  Per the spec a ticket is "persisted with an expiry",
and the call site passes `60 * 60` commented "1 hour", so the helper maps a
number of seconds to the timestamp that many seconds after now
(milliseconds since the epoch). -/
def generateTicketExpiresAt (now : Nat) (seconds : Nat) : Nat :=
  now + seconds * 1000

/-- The email-change handler (`userEmailChange`): build the tagged ticket,
update the user row with the ticket, its expiry and the requested new
address, throw when no row came back, otherwise send the
`email-confirm-change` message and answer `200 OK`. -/
def userEmailChange (env : ChangeEnv) (w : ChangeWorld)
    (userId newEmail redirectTo : String) : ChangeResult :=
  let ticket := env.CONFIRM_CHANGE ++ ":" ++ w.uuid
  let ticketExpiresAt := generateTicketExpiresAt w.now (60 * 60)
  let update : UpdateUserPayload :=
    { id := userId, ticket := ticket, ticketExpiresAt := ticketExpiresAt,
      newEmail := newEmail }
  match w.updatedUser with
  | none =>
    { update := update, response := .thrown "Unable to get user", emails := [] }
  | some user =>
    let template := "email-confirm-change"
    let link := env.AUTH_SERVER_URL ++ "/verify?&ticket=" ++ ticket
      ++ "&type=" ++ env.CONFIRM_CHANGE ++ "&redirectTo=" ++ redirectTo
    let e : Email :=
      { template := template
        toAddr := newEmail
        x_ticket := ticket
        localTicket := ticket
        displayName := user.displayName
        locale := user.locale.getD env.AUTH_LOCALE_DEFAULT
        link := some link
        x_redirect_to := some redirectTo
        x_email_template := some template }
    { update := update, response := .ok, emails := [e] }

/-! ## Concrete fixtures for the closed statements -/

/-- A concrete `insertAccount` returning row. -/
def sampleReturning : AccountReturning :=
  { id := "acc-1", email := "user@example.com", locale := "en",
    user_id := "u-1", user_display_name := "user@example.com",
    user_avatar_url := "gravatar-user@example.com" }

/-- A concrete registration world: no guards firing, benign helper
results, a fixed UUID and clock. -/
def sampleWorld : RegisterWorld :=
  { adminSecretHeader := none
    isAllowedEmail := fun _ => true
    selectAccountByEmail := fun _ => false
    isCompromisedPassword := fun _ => false
    hashPassword := fun pw => "hash-" ++ pw
    getGravatarUrl := fun e => "gravatar-" ++ e
    insertReturning := sampleReturning
    setRefreshToken := fun i => "refresh-" ++ i
    createHasuraJwt := fun a => "jwt-" ++ a.id
    newJwtExpiry := 900000
    uuid := "123e4567-e89b-12d3-a456-426614174000"
    now := 1700000000000 }

/-- A concrete registration configuration with open registration and no
auto-activation. -/
def sampleReg : RegistrationConfig :=
  { ADMIN_ONLY := false, WHITELIST := false, DEFAULT_USER_ROLE := "user",
    DEFAULT_ALLOWED_USER_ROLES := ["user", "me"],
    ALLOWED_USER_ROLES := ["user", "me", "editor"],
    AUTO_ACTIVATE_NEW_USERS := false }

/-- A concrete application configuration. -/
def sampleApp : ApplicationConfig :=
  { HASURA_GRAPHQL_ADMIN_SECRET := "top-secret", EMAILS_ENABLED := true,
    SERVER_URL := "https://auth.example", APP_URL := "https://app.example" }

/-- A concrete authentication configuration requiring e-mail
verification. -/
def sampleAuth : AuthenticationConfig :=
  { VERIFY_EMAILS := true, MAGIC_LINK_ENABLED := true }

/-- A concrete passwordless (magic-link) registration body using the
default roles. -/
def sampleBody : RegisterBody :=
  { email := "user@example.com", password := none,
    user_data_display_name := none,
    register_options := { default_role := none, allowed_roles := none },
    locale := "en" }

/-- A registration body whose resolved default role is outside the
resolved allowed-roles list. -/
def bodyBadDefaultRole : RegisterBody :=
  { sampleBody with
    register_options := { default_role := some "admin", allowed_roles := none } }

/-- A registration body whose resolved allowed-roles list contains a role
outside the configured `ALLOWED_USER_ROLES`. -/
def bodyBadAllowedRoles : RegisterBody :=
  { sampleBody with
    register_options :=
      { default_role := some "superuser", allowed_roles := some ["superuser"] } }

/-- A concrete email-change environment. -/
def sampleEnv : ChangeEnv :=
  { AUTH_SERVER_URL := "https://auth.example"
    AUTH_CLIENT_URL := "https://app.example"
    AUTH_LOCALE_DEFAULT := "en"
    CONFIRM_CHANGE := "emailConfirmChange" }

/-- A concrete email-change world whose `updateUser` mutation returned a
row. -/
def sampleChangeWorld : ChangeWorld :=
  { uuid := "9f1b2c3d-4e5f-6071-8293-a4b5c6d7e8f9"
    now := 1700000000000
    updatedUser := some { displayName := "Jane", locale := some "fr" } }

/-- A concrete email-change world whose `updateUser` mutation returned no
row. -/
def sampleChangeWorldNone : ChangeWorld :=
  { sampleChangeWorld with updatedUser := none }

/-- A ticket string carries a type tag when a tag is joined to the rest of
the ticket by a colon separator — the scheme the email-change handler uses
(`tag:uuid`); a bare UUID contains no colon. -/
def hasTypeTag (t : String) : Bool :=
  t.data.contains ':'

/-- The account row `registerAccount` inserts on the `sampleWorld` /
`sampleBody` run. -/
def sampleInserted : AccountInsert :=
  { email := "user@example.com", password_hash := none,
    ticket := "123e4567-e89b-12d3-a456-426614174000",
    ticket_expires_at := 1700000000000 + 60 * 60 * 1000,
    active := false, locale := "en", default_role := "user",
    account_roles := ["user", "me"], display_name := "user@example.com",
    avatar_url := "gravatar-user@example.com" }

/-- The session `registerAccount` sends on the `sampleWorld` / `sampleBody`
run (verification required, so the null session). -/
def sampleSession : Session :=
  { jwt_token := none, jwt_expires_in := none,
    user := { id := "u-1", display_name := "user@example.com",
              email := "user@example.com",
              avatar_url := "gravatar-user@example.com" },
    refresh_token := none }

/-- The message `userEmailChange` sends on the `sampleEnv` /
`sampleChangeWorld` run. -/
def sampleChangeEmail : Email :=
  { template := "email-confirm-change"
    toAddr := "new@example.com"
    x_ticket := "emailConfirmChange:9f1b2c3d-4e5f-6071-8293-a4b5c6d7e8f9"
    localTicket := "emailConfirmChange:9f1b2c3d-4e5f-6071-8293-a4b5c6d7e8f9"
    displayName := "Jane"
    locale := "fr"
    link := some ("https://auth.example/verify?&ticket=emailConfirmChange:9f1b2c3d-4e5f-6071-8293-a4b5c6d7e8f9&type=emailConfirmChange&redirectTo=https://app.example")
    x_redirect_to := some "https://app.example"
    x_email_template := some "email-confirm-change" }

/-! ## Helper lemmas on the registration handler -/

/-- `registerInsert` passes the list of checked passwords through
unchanged. -/
theorem registerInsert_checkedPasswords (reg : RegistrationConfig)
    (app : ApplicationConfig) (auth : AuthenticationConfig)
    (w : RegisterWorld) (body : RegisterBody) (ph : Option String)
    (ck : List String) :
    (registerInsert reg app auth w body ph ck).checkedPasswords = ck := by
  simp only [registerInsert]
  split_ifs <;> rfl

/-- Whenever `registerInsert` reports an inserted row, that row is the
account object the handler built: in particular its `ticket` is the fresh
UUID, its expiry is one hour after `now`, and its `password_hash` is the
argument. -/
theorem registerInsert_inserted_eq (reg : RegistrationConfig)
    (app : ApplicationConfig) (auth : AuthenticationConfig)
    (w : RegisterWorld) (body : RegisterBody) (ph : Option String)
    (ck : List String) (a : AccountInsert)
    (h : (registerInsert reg app auth w body ph ck).inserted = some a) :
    a = { email := body.email, password_hash := ph, ticket := w.uuid,
          ticket_expires_at := w.now + 60 * 60 * 1000,
          active := reg.AUTO_ACTIVATE_NEW_USERS, locale := body.locale,
          default_role := resolvedDefaultRole reg body,
          account_roles := resolvedAllowedRoles reg body,
          display_name := body.user_data_display_name.getD body.email,
          avatar_url := w.getGravatarUrl body.email } := by
  simp only [registerInsert] at h
  split_ifs at h <;> simp_all

/-- The only `badRequest` messages `registerInsert` can produce are the two
role-validation rejections. -/
theorem registerInsert_badRequest_msgs (reg : RegistrationConfig)
    (app : ApplicationConfig) (auth : AuthenticationConfig)
    (w : RegisterWorld) (body : RegisterBody) (ph : Option String)
    (ck : List String) (m : String)
    (h : (registerInsert reg app auth w body ph ck).response = .badRequest m) :
    m = "Default role must be part of allowed roles"
    ∨ m = "Allowed roles must be a subset of ALLOWED_ROLES" := by
  simp only [registerInsert] at h
  split_ifs at h <;> simp_all

/-- When the admin-only, whitelist, duplicate-account and
compromised-password guards all pass, `registerAccount` reduces to
`registerInsert` with the password handled according to the login kind. -/
theorem registerAccount_guards_pass (reg : RegistrationConfig)
    (app : ApplicationConfig) (auth : AuthenticationConfig)
    (w : RegisterWorld) (body : RegisterBody)
    (hA : adminBlocked reg app w = false)
    (hW : whitelistBlocked reg w body = false)
    (hE : w.selectAccountByEmail body.email = false)
    (hP : ∀ pw, body.password = some pw → w.isCompromisedPassword pw = false) :
    (body.password = none →
      registerAccount reg app auth w body
        = registerInsert reg app auth w body none [])
    ∧ (∀ pw, body.password = some pw →
      registerAccount reg app auth w body
        = registerInsert reg app auth w body (some (w.hashPassword pw)) [pw]) := by
  constructor
  · intro hp
    unfold registerAccount
    rw [hA, hW, hE, hp]
    simp
  · intro pw hp
    unfold registerAccount
    rw [hA, hW, hE, hp]
    simp [hP pw hp]

/-! ## Claim theorems -/

/-- C3: whenever the resolved default role is not a member of the resolved
allowed-roles list (and the request reaches the role validation, i.e. the
admin-only, whitelist, duplicate-account and compromised-password guards
pass), registration answers 400 "Default role must be part of allowed
roles" and inserts no account and sends no e-mail. -/
theorem register_rejects_invalid_default_role (reg : RegistrationConfig)
    (app : ApplicationConfig) (auth : AuthenticationConfig)
    (w : RegisterWorld) (body : RegisterBody)
    (hA : adminBlocked reg app w = false)
    (hW : whitelistBlocked reg w body = false)
    (hE : w.selectAccountByEmail body.email = false)
    (hP : ∀ pw, body.password = some pw → w.isCompromisedPassword pw = false)
    (hR : (resolvedAllowedRoles reg body).contains (resolvedDefaultRole reg body)
            = false) :
    (registerAccount reg app auth w body).response
      = .badRequest "Default role must be part of allowed roles"
    ∧ (registerAccount reg app auth w body).inserted = none
    ∧ (registerAccount reg app auth w body).emails = [] := by
  obtain ⟨h1, h2⟩ := registerAccount_guards_pass reg app auth w body hA hW hE hP
  cases hp : body.password with
  | none =>
    rw [h1 hp]
    simp only [registerInsert]
    rw [hR]
    simp
  | some pw =>
    rw [h2 pw hp]
    simp only [registerInsert]
    rw [hR]
    simp

/-- C3 witness: a concrete run (default role "admin" outside the default
allowed roles) hitting the rejection. -/
theorem register_rejects_invalid_default_role_witness :
    (registerAccount sampleReg sampleApp sampleAuth sampleWorld bodyBadDefaultRole).response
      = .badRequest "Default role must be part of allowed roles"
    ∧ (registerAccount sampleReg sampleApp sampleAuth sampleWorld bodyBadDefaultRole).inserted
      = none
    ∧ (registerAccount sampleReg sampleApp sampleAuth sampleWorld bodyBadDefaultRole).emails
      = [] :=
  register_rejects_invalid_default_role sampleReg sampleApp sampleAuth sampleWorld
    bodyBadDefaultRole rfl rfl rfl (fun _ h => nomatch h) (by decide)

/-- C4: whenever the resolved allowed-roles list is not a subset of the
configured `ALLOWED_USER_ROLES` (and the request reaches that validation:
the earlier guards pass and the default role is in the allowed list),
registration answers 400 "Allowed roles must be a subset of ALLOWED_ROLES"
and inserts no account and sends no e-mail. -/
theorem register_rejects_non_subset_roles (reg : RegistrationConfig)
    (app : ApplicationConfig) (auth : AuthenticationConfig)
    (w : RegisterWorld) (body : RegisterBody)
    (hA : adminBlocked reg app w = false)
    (hW : whitelistBlocked reg w body = false)
    (hE : w.selectAccountByEmail body.email = false)
    (hP : ∀ pw, body.password = some pw → w.isCompromisedPassword pw = false)
    (hR : (resolvedAllowedRoles reg body).contains (resolvedDefaultRole reg body)
            = true)
    (hS : ((resolvedAllowedRoles reg body).all
            fun role => reg.ALLOWED_USER_ROLES.contains role) = false) :
    (registerAccount reg app auth w body).response
      = .badRequest "Allowed roles must be a subset of ALLOWED_ROLES"
    ∧ (registerAccount reg app auth w body).inserted = none
    ∧ (registerAccount reg app auth w body).emails = [] := by
  obtain ⟨h1, h2⟩ := registerAccount_guards_pass reg app auth w body hA hW hE hP
  cases hp : body.password with
  | none =>
    rw [h1 hp]
    simp only [registerInsert]
    rw [hR, hS]
    simp
  | some pw =>
    rw [h2 pw hp]
    simp only [registerInsert]
    rw [hR, hS]
    simp

/-- C4 witness: a concrete run (allowed roles ["superuser"], not a subset
of the configured roles) hitting the rejection. -/
theorem register_rejects_non_subset_roles_witness :
    (registerAccount sampleReg sampleApp sampleAuth sampleWorld bodyBadAllowedRoles).response
      = .badRequest "Allowed roles must be a subset of ALLOWED_ROLES"
    ∧ (registerAccount sampleReg sampleApp sampleAuth sampleWorld bodyBadAllowedRoles).inserted
      = none
    ∧ (registerAccount sampleReg sampleApp sampleAuth sampleWorld bodyBadAllowedRoles).emails
      = [] :=
  register_rejects_non_subset_roles sampleReg sampleApp sampleAuth sampleWorld
    bodyBadAllowedRoles rfl rfl rfl (fun _ h => nomatch h) (by decide) (by decide)

/-- C6: whenever `selectAccountByEmail` finds an existing account (and the
admin-only and whitelist guards pass), registration answers 400 "Account
already exists" and performs no insertion (hence persists no ticket) and
sends no e-mail. -/
theorem register_rejects_existing_account (reg : RegistrationConfig)
    (app : ApplicationConfig) (auth : AuthenticationConfig)
    (w : RegisterWorld) (body : RegisterBody)
    (hA : adminBlocked reg app w = false)
    (hW : whitelistBlocked reg w body = false)
    (hE : w.selectAccountByEmail body.email = true) :
    (registerAccount reg app auth w body).response
      = .badRequest "Account already exists"
    ∧ (registerAccount reg app auth w body).inserted = none
    ∧ (registerAccount reg app auth w body).emails = [] := by
  unfold registerAccount
  rw [hA, hW, hE]
  simp

/-- C6 witness: a concrete run against a world whose account lookup
succeeds. -/
theorem register_rejects_existing_account_witness :
    (registerAccount sampleReg sampleApp sampleAuth
        { sampleWorld with selectAccountByEmail := fun _ => true } sampleBody).response
      = .badRequest "Account already exists"
    ∧ (registerAccount sampleReg sampleApp sampleAuth
        { sampleWorld with selectAccountByEmail := fun _ => true } sampleBody).inserted
      = none
    ∧ (registerAccount sampleReg sampleApp sampleAuth
        { sampleWorld with selectAccountByEmail := fun _ => true } sampleBody).emails
      = [] :=
  register_rejects_existing_account sampleReg sampleApp sampleAuth
    { sampleWorld with selectAccountByEmail := fun _ => true } sampleBody rfl rfl rfl

/-- Whenever `registerAccount` reports an inserted row, its ticket is the
fresh UUID, its expiry is one hour after `now`, and its password hash is
the hash of the submitted password when one was submitted and null
otherwise. -/
theorem registerAccount_inserted_fields (reg : RegistrationConfig)
    (app : ApplicationConfig) (auth : AuthenticationConfig)
    (w : RegisterWorld) (body : RegisterBody) (a : AccountInsert)
    (h : (registerAccount reg app auth w body).inserted = some a) :
    a.ticket = w.uuid
    ∧ a.ticket_expires_at = w.now + 60 * 60 * 1000
    ∧ a.password_hash = body.password.map w.hashPassword := by
  unfold registerAccount at h
  split_ifs at h
  cases hp : body.password with
  | none =>
    rw [hp] at h
    rw [registerInsert_inserted_eq reg app auth w body none [] a h]
    exact ⟨rfl, rfl, rfl⟩
  | some pw =>
    rw [hp] at h
    have h2 : (if w.isCompromisedPassword pw = true then
        ({ response := RegisterResponse.badRequest "Password is too weak",
           inserted := none, emails := [], checkedPasswords := [pw] } : RegisterResult)
      else registerInsert reg app auth w body (some (w.hashPassword pw)) [pw]).inserted
        = some a := h
    split_ifs at h2
    rw [registerInsert_inserted_eq reg app auth w body
          (some (w.hashPassword pw)) [pw] a h2]
    exact ⟨rfl, rfl, rfl⟩

/-- Whenever `registerInsert` answers `200 OK`, the session is the full
JWT + refresh-token session when users are auto-activated or verification
is off, and the null session otherwise. -/
theorem registerInsert_ok_session (reg : RegistrationConfig)
    (app : ApplicationConfig) (auth : AuthenticationConfig)
    (w : RegisterWorld) (body : RegisterBody) (ph : Option String)
    (ck : List String) (s : Session)
    (h : (registerInsert reg app auth w body ph ck).response = .ok s) :
    if reg.AUTO_ACTIVATE_NEW_USERS || !auth.VERIFY_EMAILS then
      s.jwt_token.isSome = true ∧ s.jwt_expires_in.isSome = true
        ∧ s.refresh_token.isSome = true
    else
      s.jwt_token = none ∧ s.jwt_expires_in = none ∧ s.refresh_token = none := by
  simp only [registerInsert] at h
  split_ifs at h
  all_goals simp at h
  all_goals try subst h
  all_goals
    cases hAA : reg.AUTO_ACTIVATE_NEW_USERS <;>
      cases hV : auth.VERIFY_EMAILS <;> simp_all

/-- C5: whenever registration answers with a session, that session carries
a JWT token, a JWT expiry and a refresh token when new users are
auto-activated or e-mail verification is off, and has null `jwt_token` and
`jwt_expires_in` and no refresh token when verification is required and
auto-activation is off. -/
theorem register_session_shape (reg : RegistrationConfig)
    (app : ApplicationConfig) (auth : AuthenticationConfig)
    (w : RegisterWorld) (body : RegisterBody) (s : Session)
    (h : (registerAccount reg app auth w body).response = .ok s) :
    if reg.AUTO_ACTIVATE_NEW_USERS || !auth.VERIFY_EMAILS then
      s.jwt_token.isSome = true ∧ s.jwt_expires_in.isSome = true
        ∧ s.refresh_token.isSome = true
    else
      s.jwt_token = none ∧ s.jwt_expires_in = none ∧ s.refresh_token = none := by
  unfold registerAccount at h
  split_ifs at h
  cases hp : body.password with
  | none =>
    rw [hp] at h
    exact registerInsert_ok_session reg app auth w body none [] s h
  | some pw =>
    rw [hp] at h
    have h2 : (if w.isCompromisedPassword pw = true then
        ({ response := RegisterResponse.badRequest "Password is too weak",
           inserted := none, emails := [], checkedPasswords := [pw] } : RegisterResult)
      else registerInsert reg app auth w body (some (w.hashPassword pw)) [pw]).response
        = .ok s := h
    split_ifs at h2
    exact registerInsert_ok_session reg app auth w body
      (some (w.hashPassword pw)) [pw] s h2

/-- C5 witness: on the concrete run requiring verification, the response
session is the null session. -/
theorem register_session_shape_witness :
    if sampleReg.AUTO_ACTIVATE_NEW_USERS || !sampleAuth.VERIFY_EMAILS then
      sampleSession.jwt_token.isSome = true
        ∧ sampleSession.jwt_expires_in.isSome = true
        ∧ sampleSession.refresh_token.isSome = true
    else
      sampleSession.jwt_token = none ∧ sampleSession.jwt_expires_in = none
        ∧ sampleSession.refresh_token = none :=
  register_session_shape sampleReg sampleApp sampleAuth sampleWorld sampleBody
    sampleSession (by decide)

/-- C1 counterexample: a concrete registration run stores a ticket that is
the bare UUID — it carries no type-tag prefix (no colon-separated tag), so
not every generated ticket begins with a flow-distinguishing tag. -/
theorem register_ticket_untagged_counterexample :
    ((registerAccount sampleReg sampleApp sampleAuth sampleWorld sampleBody).inserted.map
        AccountInsert.ticket) = some "123e4567-e89b-12d3-a456-426614174000"
    ∧ hasTypeTag "123e4567-e89b-12d3-a456-426614174000" = false := by
  exact ⟨by decide, by decide⟩

/-- C1 (amended): the email-change operation stores a ticket beginning with
the `EMAIL_TYPES.CONFIRM_CHANGE` type tag followed by a colon, but the
registration operation stores a bare UUID with no type-tag prefix. -/
theorem emailChange_ticket_tagged_register_ticket_bare (env : ChangeEnv)
    (cw : ChangeWorld) (userId newEmail redirectTo : String)
    (reg : RegistrationConfig) (app : ApplicationConfig)
    (auth : AuthenticationConfig) (w : RegisterWorld) (body : RegisterBody)
    (a : AccountInsert)
    (h : (registerAccount reg app auth w body).inserted = some a) :
    (userEmailChange env cw userId newEmail redirectTo).update.ticket
      = env.CONFIRM_CHANGE ++ ":" ++ cw.uuid
    ∧ a.ticket = w.uuid := by
  refine ⟨?_, (registerAccount_inserted_fields reg app auth w body a h).1⟩
  cases hu : cw.updatedUser <;> simp [userEmailChange, hu]

/-- C1 (amended) witness: the concrete email-change and registration
runs. -/
theorem emailChange_ticket_tagged_register_ticket_bare_witness :
    (userEmailChange sampleEnv sampleChangeWorld "u-1" "new@example.com"
        "https://app.example").update.ticket
      = sampleEnv.CONFIRM_CHANGE ++ ":" ++ sampleChangeWorld.uuid
    ∧ sampleInserted.ticket = sampleWorld.uuid :=
  emailChange_ticket_tagged_register_ticket_bare sampleEnv sampleChangeWorld
    "u-1" "new@example.com" "https://app.example" sampleReg sampleApp
    sampleAuth sampleWorld sampleBody sampleInserted (by decide)

/-- C2: every persisted ticket comes with an expiry exactly 60 minutes
after generation: a registration-inserted account's `ticket_expires_at` is
`now + 60 * 60 * 1000` milliseconds, and the email-change `updateUser`
payload's `ticketExpiresAt` likewise. -/
theorem ticket_expiry_one_hour (reg : RegistrationConfig)
    (app : ApplicationConfig) (auth : AuthenticationConfig)
    (w : RegisterWorld) (body : RegisterBody) (a : AccountInsert)
    (env : ChangeEnv) (cw : ChangeWorld) (userId newEmail redirectTo : String)
    (h : (registerAccount reg app auth w body).inserted = some a) :
    a.ticket_expires_at = w.now + 60 * 60 * 1000
    ∧ (userEmailChange env cw userId newEmail redirectTo).update.ticketExpiresAt
        = cw.now + 60 * 60 * 1000 := by
  refine ⟨(registerAccount_inserted_fields reg app auth w body a h).2.1, ?_⟩
  cases hu : cw.updatedUser <;>
    simp [userEmailChange, generateTicketExpiresAt, hu]

/-- C2 witness: the concrete runs, with the fixed clock at
1700000000000. -/
theorem ticket_expiry_one_hour_witness :
    sampleInserted.ticket_expires_at = sampleWorld.now + 60 * 60 * 1000
    ∧ (userEmailChange sampleEnv sampleChangeWorld "u-1" "new@example.com"
        "https://app.example").update.ticketExpiresAt
      = sampleChangeWorld.now + 60 * 60 * 1000 :=
  ticket_expiry_one_hour sampleReg sampleApp sampleAuth sampleWorld sampleBody
    sampleInserted sampleEnv sampleChangeWorld "u-1" "new@example.com"
    "https://app.example" (by decide)

/-- C9: a passwordless (non-regular, in particular magic-link) registration
never submits anything to the compromised-password check and inserts the
account with a null password hash; and the "Password is too weak" rejection
can only happen on a regular (password) login. -/
theorem register_passwordless_no_hash_no_check (reg : RegistrationConfig)
    (app : ApplicationConfig) (auth : AuthenticationConfig)
    (w : RegisterWorld) (body : RegisterBody) :
    (isRegularLogin body = false →
      (registerAccount reg app auth w body).checkedPasswords = []
      ∧ ∀ a, (registerAccount reg app auth w body).inserted = some a →
          a.password_hash = none)
    ∧ ((registerAccount reg app auth w body).response
          = .badRequest "Password is too weak" →
        isRegularLogin body = true) := by
  constructor
  · intro hreg
    have hp : body.password = none := by
      cases hpp : body.password with
      | none => rfl
      | some pw => rw [isRegularLogin, hpp] at hreg; simp at hreg
    constructor
    · unfold registerAccount
      rw [hp]
      split_ifs
      all_goals first
        | rfl
        | exact registerInsert_checkedPasswords reg app auth w body none []
    · intro a ha
      have := (registerAccount_inserted_fields reg app auth w body a ha).2.2
      rw [hp] at this
      exact this
  · intro hw
    cases hpp : body.password with
    | some pw => rw [isRegularLogin, hpp]; rfl
    | none =>
      exfalso
      unfold registerAccount at hw
      rw [hpp] at hw
      split_ifs at hw
      all_goals try simp at hw
      have := registerInsert_badRequest_msgs reg app auth w body none []
        "Password is too weak" hw
      rcases this with h1 | h1 <;> simp at h1

/-- C9 witness: the concrete passwordless run checks no password and
inserts a null hash. -/
theorem register_passwordless_no_hash_no_check_witness :
    (registerAccount sampleReg sampleApp sampleAuth sampleWorld sampleBody).checkedPasswords
      = []
    ∧ sampleInserted.password_hash = none :=
  ⟨((register_passwordless_no_hash_no_check sampleReg sampleApp sampleAuth
      sampleWorld sampleBody).1 rfl).1,
   ((register_passwordless_no_hash_no_check sampleReg sampleApp sampleAuth
      sampleWorld sampleBody).1 rfl).2 sampleInserted (by decide)⟩

/-- C7: when the `updateUser` mutation returns no user, the email-change
handler throws "Unable to get user" (a 5xx) and sends no e-mail; and it
answers `200 OK` only when the update returned a user and the e-mail was
sent. -/
theorem emailChange_requires_updated_user (env : ChangeEnv) (cw : ChangeWorld)
    (userId newEmail redirectTo : String) :
    (cw.updatedUser = none →
      (userEmailChange env cw userId newEmail redirectTo).response
          = .thrown "Unable to get user"
      ∧ (userEmailChange env cw userId newEmail redirectTo).emails = [])
    ∧ ((userEmailChange env cw userId newEmail redirectTo).response = .ok →
      cw.updatedUser.isSome = true
      ∧ (userEmailChange env cw userId newEmail redirectTo).emails.length = 1) := by
  cases hu : cw.updatedUser <;> simp [userEmailChange, hu]

/-- C7 witness: the concrete run whose update returned no user throws and
sends nothing. -/
theorem emailChange_requires_updated_user_witness :
    (userEmailChange sampleEnv sampleChangeWorldNone "u-1" "new@example.com"
        "https://app.example").response = .thrown "Unable to get user"
    ∧ (userEmailChange sampleEnv sampleChangeWorldNone "u-1" "new@example.com"
        "https://app.example").emails = [] :=
  (emailChange_requires_updated_user sampleEnv sampleChangeWorldNone "u-1"
    "new@example.com" "https://app.example").1 rfl

/-- C8: every e-mail the email-change handler sends carries, in its
`x-ticket` header, in its `ticket` template local and embedded in its
verification link, exactly the ticket persisted by the `updateUser`
mutation. -/
theorem emailChange_ticket_consistency (env : ChangeEnv) (cw : ChangeWorld)
    (userId newEmail redirectTo : String) (e : Email)
    (h : e ∈ (userEmailChange env cw userId newEmail redirectTo).emails) :
    e.x_ticket = (userEmailChange env cw userId newEmail redirectTo).update.ticket
    ∧ e.localTicket
        = (userEmailChange env cw userId newEmail redirectTo).update.ticket
    ∧ e.link = some (env.AUTH_SERVER_URL ++ "/verify?&ticket="
        ++ (userEmailChange env cw userId newEmail redirectTo).update.ticket
        ++ "&type=" ++ env.CONFIRM_CHANGE ++ "&redirectTo=" ++ redirectTo) := by
  cases hu : cw.updatedUser <;> simp [userEmailChange, hu] at h ⊢
  subst h
  simp

/-- C8 witness: the concrete run, with the stored and e-mailed tickets
evaluated. -/
theorem emailChange_ticket_consistency_witness :
    sampleChangeEmail.x_ticket
      = (userEmailChange sampleEnv sampleChangeWorld "u-1" "new@example.com"
          "https://app.example").update.ticket
    ∧ sampleChangeEmail.localTicket
      = (userEmailChange sampleEnv sampleChangeWorld "u-1" "new@example.com"
          "https://app.example").update.ticket
    ∧ sampleChangeEmail.link = some (sampleEnv.AUTH_SERVER_URL
        ++ "/verify?&ticket="
        ++ (userEmailChange sampleEnv sampleChangeWorld "u-1" "new@example.com"
            "https://app.example").update.ticket
        ++ "&type=" ++ sampleEnv.CONFIRM_CHANGE ++ "&redirectTo="
        ++ "https://app.example") :=
  emailChange_ticket_consistency sampleEnv sampleChangeWorld "u-1"
    "new@example.com" "https://app.example" sampleChangeEmail (by decide)

/-- C10: every e-mail the email-change handler sends is addressed to the
requested new address from the request body. -/
theorem emailChange_sends_to_new_email (env : ChangeEnv) (cw : ChangeWorld)
    (userId newEmail redirectTo : String) (e : Email)
    (h : e ∈ (userEmailChange env cw userId newEmail redirectTo).emails) :
    e.toAddr = newEmail := by
  cases hu : cw.updatedUser <;> simp [userEmailChange, hu] at h
  subst h
  rfl

/-- C10 witness: the concrete run's message goes to the new address. -/
theorem emailChange_sends_to_new_email_witness :
    sampleChangeEmail.toAddr = "new@example.com" :=
  emailChange_sends_to_new_email sampleEnv sampleChangeWorld "u-1"
    "new@example.com" "https://app.example" sampleChangeEmail (by decide)

end HasuraAuth
